import Mathlib

/-!
Verification of the appointment admission subsystem of `src/app.py` (SaludGo).

The embedding models the code paths that create, list and count rows of the
`appointments` table: the self-service booking view `mis_citas` (POST and GET
branches), the administrative creation view `admin_citas` (POST branch), the
administrative creation endpoint `admin_appointments_create`, and the email
helper `send_email`.  Python strings are Lean `String`s manipulated through
structural helpers mirroring `str.strip`, truthiness and SQLite's binary
collation so that every definition is kernel-computable.
-/

namespace SaludGo

/-! ### String helpers (Python / SQLite semantics) -/

/-- Python `str.strip()`: drop leading and trailing whitespace. -/
def pyStrip (s : String) : String :=
  String.mk (((s.data.dropWhile Char.isWhitespace).reverse.dropWhile Char.isWhitespace).reverse)

/-- Python `s or d` for strings: the empty string is falsy. -/
def strOr (s d : String) : String := if s = "" then d else s

/-- Python `s or None` for strings. -/
def strOrNone (s : String) : Option String := if s = "" then none else some s

/-- Python truthiness of a nullable DB text value (`if u["email"]:`). -/
def truthy : Option String → Bool
  | none => false
  | some s => !(s = "")

/-- Strict lexicographic order on character lists (SQLite BINARY collation on
text values; for the ASCII ISO dates handled here it agrees with memcmp). -/
def charListLt : List Char → List Char → Bool
  | _, [] => false
  | [], _ :: _ => true
  | a :: as, b :: bs => decide (a < b) || (decide (a = b) && charListLt as bs)

/-- Strict SQLite text comparison. -/
def strLtB (a b : String) : Bool := charListLt a.data b.data

/-- Non-strict SQLite text comparison, used for `BETWEEN`. -/
def strLeB (a b : String) : Bool := strLtB a b || decide (a = b)

/-! ### Calendar dates (`datetime.date`) -/

/-- A calendar date as produced by `datetime.date`. -/
structure YMD where
  year : Nat
  month : Nat
  day : Nat
deriving DecidableEq, Repr

/-- Gregorian leap-year rule used by `datetime`. -/
def isLeap (y : Nat) : Bool :=
  (decide (y % 4 = 0) && !(decide (y % 100 = 0))) || decide (y % 400 = 0)

/-- Number of days of a month, as validated by `datetime.date`. -/
def daysInMonth (y m : Nat) : Nat :=
  if m = 2 then (if isLeap y then 29 else 28)
  else if m = 4 ∨ m = 6 ∨ m = 9 ∨ m = 11 then 30
  else 31

/-- Comparison `fecha < date.today()` on `datetime.date` values. -/
def ymdLt (a b : YMD) : Bool :=
  decide (a.year < b.year) ||
    (decide (a.year = b.year) &&
      (decide (a.month < b.month) ||
        (decide (a.month = b.month) && decide (a.day < b.day))))

/-- Non-strict comparison on `datetime.date` values. -/
def ymdLe (a b : YMD) : Bool := ymdLt a b || decide (a = b)

/-- Python `"x-y-z".split` used to mirror the `%Y-%m-%d` field structure. -/
def splitOnDash : List Char → List (List Char)
  | [] => [[]]
  | c :: cs =>
    let r := splitOnDash cs
    if c = '-' then [] :: r
    else
      match r with
      | [] => [[c]]
      | h :: t => (c :: h) :: t

/-- Numeric value of a digit string. -/
def digitsVal (l : List Char) : Nat := l.foldl (fun n c => n * 10 + (c.toNat - 48)) 0

/-- The `parse_date` helper inside `mis_citas`:
`dt.strptime(s, "%Y-%m-%d").date()` with `None` where Python raises.
`%Y` matches exactly four digits, `%m`/`%d` one or two, and
`datetime.date` then validates the ranges (year at least 1, month 1..12,
day 1..days-in-month). -/
def parse_date (s : String) : Option YMD :=
  match splitOnDash s.data with
  | [ys, ms, ds] =>
    if decide (ys.length = 4) && ys.all Char.isDigit &&
        decide (1 ≤ ms.length) && decide (ms.length ≤ 2) && ms.all Char.isDigit &&
        decide (1 ≤ ds.length) && decide (ds.length ≤ 2) && ds.all Char.isDigit then
      let y := digitsVal ys
      let m := digitsVal ms
      let d := digitsVal ds
      if decide (1 ≤ y) && decide (1 ≤ m) && decide (m ≤ 12) &&
          decide (1 ≤ d) && decide (d ≤ daysInMonth y m) then
        some ⟨y, m, d⟩
      else none
    else none
  | _ => none

/-- Decimal digit character. -/
def digitChar (n : Nat) : Char := Char.ofNat (48 + n)

/-- Two-digit zero-padded field of `date.isoformat()` (month and day are
always at most two digits on a `datetime.date`). -/
def pad2 (n : Nat) : String := String.mk [digitChar (n / 10), digitChar (n % 10)]

/-- Four-digit zero-padded year of `date.isoformat()` (`datetime.date` years
are between 1 and 9999). -/
def pad4 (n : Nat) : String :=
  String.mk [digitChar (n / 1000), digitChar (n / 100 % 10),
             digitChar (n / 10 % 10), digitChar (n % 10)]

/-- `fecha.isoformat()`: the `YYYY-MM-DD` rendering of a date. -/
def isoformat (x : YMD) : String := pad4 x.year ++ "-" ++ pad2 x.month ++ "-" ++ pad2 x.day

/-- `date + timedelta(days=1)` for a valid date. -/
def nextDay (x : YMD) : YMD :=
  if x.day < daysInMonth x.year x.month then ⟨x.year, x.month, x.day + 1⟩
  else if x.month < 12 then ⟨x.year, x.month + 1, 1⟩
  else ⟨x.year + 1, 1, 1⟩

/-- `date + timedelta(days=n)`. -/
def addDays (x : YMD) : Nat → YMD
  | 0 => x
  | n + 1 => nextDay (addDays x n)

/-- Well-formedness of a `datetime.date` value. -/
def validYMD (x : YMD) : Prop :=
  1 ≤ x.month ∧ x.month ≤ 12 ∧ 1 ≤ x.day ∧ x.day ≤ daysInMonth x.year x.month

instance (x : YMD) : Decidable (validYMD x) := by
  unfold validYMD; infer_instance

/-! ### Data model -/

/-- One row of the `appointments` table (the columns the core reads and
writes; `id` and `created_at` are assigned by SQLite and never consulted by
the modelled paths, so they are elided). -/
structure Appt where
  user_id : Nat
  fecha : Option String
  hora : Option String
  tipo : String
  lugar : String
  motivo : String
  estado : String
deriving DecidableEq, Repr

/-- One row of the `users` table (the columns the appointment paths read). -/
structure User where
  id : Nat
  username : String
  email : Option String
deriving DecidableEq, Repr

/-- Process configuration read from the environment at import time:
`MAX_APPOINTMENTS_PER_DAY`, `ADMIN_EMAIL` and the `SMTP_*` variables
(the empty string models an unset variable). -/
structure Config where
  maxPerDay : Nat
  adminEmail : String
  smtpHost : String
  smtpUser : String
  smtpPass : String
deriving DecidableEq, Repr

/-- Observable side effects of a request: the appointment-count query, the
row insert, and each produced email message (bodies elided). -/
inductive Event where
  | countQuery (fecha : String) (result : Nat)
  | insertRow (row : Appt)
  | email (toAddr subject : String)
deriving DecidableEq, Repr

/-- What a request handler returns to the web framework: a redirect carrying
a flash message and category, or an uncaught exception (HTTP 500). -/
inductive Outcome where
  | redirect (flashMsg flashCat : String)
  | serverError (msg : String)
deriving DecidableEq, Repr

/-- Result of running one POST handler: the emitted events, the appointments
table afterwards, and the response. -/
structure PostResult where
  events : List Event
  store : List Appt
  outcome : Outcome
deriving DecidableEq, Repr

/-! ### Appointment store operations -/

/-- `SELECT COUNT(*) FROM appointments WHERE fecha=?` (a NULL `fecha` never
equals a text parameter). -/
def countByDate (store : List Appt) (f : String) : Nat :=
  (store.filter (fun a => decide (a.fecha = some f))).length

/-- Column names of the `appointments` table in `SCHEMA_SQL`. -/
def appointmentsColumns : List String :=
  ["id", "user_id", "fecha", "hora", "tipo", "lugar", "motivo", "estado", "created_at"]

/-- `INSERT INTO appointments(cols) VALUES(...)`: sqlite3 raises an
`OperationalError` when a named column is not in the table schema, and no row
is written; otherwise the row is appended. -/
def sqlInsertAppointments (cols : List String) (row : Appt) (store : List Appt) :
    Except String (List Appt) :=
  match cols.find? (fun c => !(decide (c ∈ appointmentsColumns))) with
  | some c => Except.error ("table appointments has no column named " ++ c)
  | none => Except.ok (store ++ [row])

/-- Column list of the INSERT in `mis_citas` and in `admin_citas`. -/
def citasColumns : List String :=
  ["user_id", "fecha", "hora", "tipo", "lugar", "motivo", "estado"]

/-- Column list of the INSERT in `admin_appointments_create`; it names a
column `note` that the schema does not define (the schema column is
`motivo`). -/
def adminCreateColumns : List String :=
  ["user_id", "fecha", "hora", "tipo", "lugar", "note", "estado"]

/-! ### Email helper -/

/-- The `send_email` helper.  When the `SMTP_*` configuration is incomplete
the message is printed to the console (never fails); otherwise the SMTP
transport is invoked and any exception it raises propagates to the caller.
A produced message is recorded as an `Event.email`; bodies are elided. -/
def send_email (cfg : Config) (transport : String → String → Except String Unit)
    (toEmail subject : String) : List Event × Except String Unit :=
  if cfg.smtpHost = "" ∨ cfg.smtpUser = "" ∨ cfg.smtpPass = "" then
    ([Event.email toEmail subject], Except.ok ())
  else
    match transport toEmail subject with
    | Except.ok _ => ([Event.email toEmail subject], Except.ok ())
    | Except.error e => ([], Except.error e)

/-! ### Self-service booking: the POST branch of `mis_citas` -/

/-- Form fields of the booking POST (a missing field is the empty string,
matching `request.form.get(k) or ""`). -/
structure BookingForm where
  tipo : String
  motivo : String
  preferencia_fecha : String
  preferencia_hora : String
  lugar : String
deriving DecidableEq, Repr

/-- Flash message of a rejected unparsable date. -/
def msgInvalidDate : String := "Selecciona una fecha válida para la cita."

/-- Flash message of a rejected past date. -/
def msgPastDate : String := "No puedes agendar en una fecha pasada."

/-- Flash message of a capacity rejection. -/
def msgCapacity : String := "Esa fecha ya no tiene cupos disponibles. Elige otro día."

/-- Flash message of a successful self-service booking. -/
def msgBookingSuccess : String := "Tu cita se generó exitosamente."

/-- The row the booking POST inserts: defaults `Consulta` / `Por definir`,
`hora` NULL when empty, status `Agendada`. -/
def bookedRow (u : User) (fecha : YMD) (f : BookingForm) : Appt :=
  { user_id := u.id
    fecha := some (isoformat fecha)
    hora := strOrNone f.preferencia_hora
    tipo := strOr (pyStrip f.tipo) "Consulta"
    lugar := strOr (pyStrip f.lugar) "Por definir"
    motivo := pyStrip f.motivo
    estado := "Agendada" }

/-- The notification fan-out after a committed self-service booking: one
message to the owner when an address is on file, then one copy to
`ADMIN_EMAIL` when configured. An exception from the first send aborts the
second. -/
def mis_citas_notify (cfg : Config) (transport : String → String → Except String Unit)
    (u : User) : List Event × Except String Unit :=
  let step1 :=
    if truthy u.email then
      send_email cfg transport (u.email.getD "") "Cita agendada — SaludGo"
    else ([], Except.ok ())
  match step1 with
  | (ev1, Except.error e) => (ev1, Except.error e)
  | (ev1, Except.ok _) =>
    if cfg.adminEmail = "" then (ev1, Except.ok ())
    else
      match send_email cfg transport cfg.adminEmail "Nueva cita programada — SaludGo" with
      | (ev2, r2) => (ev1 ++ ev2, r2)

/-- The POST branch of `mis_citas`: parse the date, reject unparsable and
past dates before any appointment query, count the target date, reject at
capacity, otherwise insert with status `Agendada`, commit, and run the
notification fan-out. -/
def mis_citas_post (cfg : Config) (transport : String → String → Except String Unit)
    (today : YMD) (u : User) (store : List Appt) (f : BookingForm) : PostResult :=
  match parse_date f.preferencia_fecha with
  | none => ⟨[], store, Outcome.redirect msgInvalidDate "warning"⟩
  | some fecha =>
    if ymdLt fecha today then ⟨[], store, Outcome.redirect msgPastDate "warning"⟩
    else
      let total := countByDate store (isoformat fecha)
      if cfg.maxPerDay ≤ total then
        ⟨[Event.countQuery (isoformat fecha) total], store,
          Outcome.redirect msgCapacity "warning"⟩
      else
        let row := bookedRow u fecha f
        match sqlInsertAppointments citasColumns row store with
        | Except.error e =>
          ⟨[Event.countQuery (isoformat fecha) total], store, Outcome.serverError e⟩
        | Except.ok store2 =>
          let ev0 := [Event.countQuery (isoformat fecha) total, Event.insertRow row]
          match mis_citas_notify cfg transport u with
          | (evs, Except.ok _) =>
            ⟨ev0 ++ evs, store2, Outcome.redirect msgBookingSuccess "success"⟩
          | (evs, Except.error e) => ⟨ev0 ++ evs, store2, Outcome.serverError e⟩

/-! ### Self-service views: the GET branch of `mis_citas` -/

/-- ORDER BY `fecha, hora` ascending: SQLite sorts NULLs first and text by
binary collation; ties on `fecha` fall back to `hora`. -/
def optStrLe : Option String → Option String → Bool
  | none, _ => true
  | some _, none => false
  | some a, some b => strLeB a b

/-- Row order produced by `ORDER BY fecha, hora`. -/
def apptOrd (a b : Appt) : Bool :=
  if a.fecha = b.fecha then optStrLe a.hora b.hora else optStrLe a.fecha b.fecha

/-- The row order as a relation. -/
def apptRel (a b : Appt) : Prop := apptOrd a b = true

instance : DecidableRel apptRel := fun a b => by
  unfold apptRel; infer_instance

/-- What the GET branch of `mis_citas` hands to the template. -/
structure GetResult where
  my_appointments : List Appt
  disabled_dates : List String
  today_str : String
  max_date : String
  max_per_day : Nat
deriving Repr

/-- The GET branch of `mis_citas`: the user's appointments ordered by
`fecha, hora`, and the disabled dates — the distinct `fecha` values between
today and today plus 30 days whose group count reaches the daily maximum. -/
def mis_citas_get (cfg : Config) (today : YMD) (u : User) (store : List Appt) : GetResult :=
  let my_appointments :=
    List.insertionSort apptRel (store.filter (fun a => decide (a.user_id = u.id)))
  let horizon := addDays today 30
  let fechasInRange := (store.filterMap (fun a => a.fecha)).filter
      (fun s => strLeB (isoformat today) s && strLeB s (isoformat horizon))
  let disabled := fechasInRange.dedup.filter
      (fun s => decide (cfg.maxPerDay ≤ (fechasInRange.filter (fun t => decide (t = s))).length))
  ⟨my_appointments, disabled, isoformat today, isoformat horizon, cfg.maxPerDay⟩

/-! ### Administrative creation: the POST branch of `admin_citas` -/

/-- Form fields of the `admin_citas` POST (`user_id` is `none` when the
field is absent or empty, the falsy cases of `if not user_id`). -/
structure AdminCitasForm where
  user_id : Option Nat
  fecha : String
  hora : String
  tipo : String
  lugar : String
  motivo : String
  estado : String
deriving DecidableEq, Repr

/-- The row the `admin_citas` POST inserts: stripped fields, `fecha` and
`hora` NULL when empty, defaults `Consulta` / `Por definir` / `Agendada`. -/
def adminCitasRow (uid : Nat) (f : AdminCitasForm) : Appt :=
  { user_id := uid
    fecha := strOrNone (pyStrip f.fecha)
    hora := strOrNone (pyStrip f.hora)
    tipo := strOr (pyStrip f.tipo) "Consulta"
    lugar := strOr (pyStrip f.lugar) "Por definir"
    motivo := pyStrip f.motivo
    estado := strOr (pyStrip f.estado) "Agendada" }

/-- The POST branch of `admin_citas`: after checking only that a user id was
submitted, the row is inserted — there is no date validation and no capacity
check — then the user is looked up for an optional notification. -/
def admin_citas_post (cfg : Config) (transport : String → String → Except String Unit)
    (users : List User) (store : List Appt) (f : AdminCitasForm) : PostResult :=
  match f.user_id with
  | none => ⟨[], store, Outcome.redirect "Debes seleccionar un usuario." "warning"⟩
  | some uid =>
    let row := adminCitasRow uid f
    match sqlInsertAppointments citasColumns row store with
    | Except.error e => ⟨[], store, Outcome.serverError e⟩
    | Except.ok store2 =>
      match users.find? (fun usr => decide (usr.id = uid)) with
      | some usr =>
        if truthy usr.email then
          match send_email cfg transport (usr.email.getD "")
              "Cita creada por el equipo de SaludGo" with
          | (ev1, Except.error e) => ⟨Event.insertRow row :: ev1, store2, Outcome.serverError e⟩
          | (ev1, Except.ok _) =>
            ⟨Event.insertRow row :: ev1, store2,
              Outcome.redirect "Cita creada para el usuario." "success"⟩
        else
          ⟨[Event.insertRow row], store2, Outcome.redirect "Cita creada para el usuario." "success"⟩
      | none =>
        ⟨[Event.insertRow row], store2, Outcome.redirect "Cita creada para el usuario." "success"⟩

/-! ### Administrative creation: `admin_appointments_create` -/

/-- Form fields of `POST /admin/appointments/create`. -/
structure AdminCreateForm where
  user_id : Option Nat
  fecha : String
  hora : String
  tipo : String
  lugar : String
  motivo : String
  estado : String
deriving DecidableEq, Repr

/-- The values `admin_appointments_create` binds for its INSERT (the `note`
value is destined for the nonexistent `note` column; it is placed in the
`motivo` field of the would-be row, which the failing INSERT never creates). -/
def adminCreateRow (uid : Nat) (f : AdminCreateForm) : Appt :=
  { user_id := uid
    fecha := strOrNone (pyStrip f.fecha)
    hora := strOrNone (pyStrip f.hora)
    tipo := pyStrip f.tipo
    lugar := pyStrip (strOr f.lugar "Por definir")
    motivo := pyStrip f.motivo
    estado := pyStrip (strOr f.estado "Agendada") }

/-- `POST /admin/appointments/create`: look the user up, then run the INSERT
whose column list names `note`; sqlite3 raises, so the handler errors and no
row is ever written.  The dead success branch mirrors the notification code
that follows the INSERT in the source. -/
def admin_appointments_create (cfg : Config)
    (transport : String → String → Except String Unit) (users : List User)
    (store : List Appt) (f : AdminCreateForm) : PostResult :=
  match users.find? (fun usr => decide (some usr.id = f.user_id)) with
  | none => ⟨[], store, Outcome.redirect "Usuario inválido para la cita." "danger"⟩
  | some usr =>
    match sqlInsertAppointments adminCreateColumns (adminCreateRow usr.id f) store with
    | Except.error e => ⟨[], store, Outcome.serverError e⟩
    | Except.ok store2 =>
      let row := adminCreateRow usr.id f
      let step1 :=
        if truthy usr.email then
          send_email cfg transport (usr.email.getD "") "Cita programada — SaludGo"
        else ([], Except.ok ())
      match step1 with
      | (ev1, Except.error e) => ⟨Event.insertRow row :: ev1, store2, Outcome.serverError e⟩
      | (ev1, Except.ok _) =>
        if cfg.adminEmail = "" then
          ⟨Event.insertRow row :: ev1, store2,
            Outcome.redirect "Cita creada exitosamente." "success"⟩
        else
          match send_email cfg transport cfg.adminEmail "Nueva cita creada — SaludGo" with
          | (ev2, Except.error e) =>
            ⟨Event.insertRow row :: (ev1 ++ ev2), store2, Outcome.serverError e⟩
          | (ev2, Except.ok _) =>
            ⟨Event.insertRow row :: (ev1 ++ ev2), store2,
              Outcome.redirect "Cita creada exitosamente." "success"⟩

/-! ### Sequences of creation operations -/

/-- One appointment-creation request: a self-service booking or a call of
`admin_appointments_create`. -/
inductive CoreOp where
  | selfBook (u : User) (f : BookingForm)
  | adminCreate (f : AdminCreateForm)

/-- Effect of one creation request on the appointments table. -/
def runOp (cfg : Config) (transport : String → String → Except String Unit)
    (today : YMD) (users : List User) (store : List Appt) : CoreOp → List Appt
  | CoreOp.selfBook u f => (mis_citas_post cfg transport today u store f).store
  | CoreOp.adminCreate f => (admin_appointments_create cfg transport users store f).store

/-- Filter of the email events of a trace. -/
def isEmailEvent : Event → Bool
  | Event.email _ _ => true
  | _ => false

/-- The email messages in a trace. -/
def emailEvents (l : List Event) : List Event := l.filter isEmailEvent

/-! ### Order lemmas for the SQLite comparators -/

theorem charListLt_irrefl : ∀ l, charListLt l l = false := by
  intro l
  induction l with
  | nil => rfl
  | cons a as ih =>
    simp [charListLt, ih]

theorem charListLt_trans :
    ∀ l1 l2 l3, charListLt l1 l2 = true → charListLt l2 l3 = true →
      charListLt l1 l3 = true := by
  intro l1
  induction l1 with
  | nil =>
    intro l2 l3 h12 h23
    cases l2 with
    | nil => simp [charListLt] at h12
    | cons b bs =>
      cases l3 with
      | nil => simp [charListLt] at h23
      | cons c cs => simp [charListLt]
  | cons a as ih =>
    intro l2 l3 h12 h23
    cases l2 with
    | nil => simp [charListLt] at h12
    | cons b bs =>
      cases l3 with
      | nil => simp [charListLt] at h23
      | cons c cs =>
        simp only [charListLt, Bool.or_eq_true, Bool.and_eq_true, decide_eq_true_eq] at h12 h23 ⊢
        rcases h12 with h | ⟨hab, h12t⟩
        · rcases h23 with h2 | ⟨hbc, h23t⟩
          · exact Or.inl (lt_trans h h2)
          · exact Or.inl (hbc ▸ h)
        · rcases h23 with h2 | ⟨hbc, h23t⟩
          · exact Or.inl (hab ▸ h2)
          · exact Or.inr ⟨hab.trans hbc, ih bs cs h12t h23t⟩

theorem charListLt_connex :
    ∀ l1 l2, charListLt l1 l2 = false → charListLt l2 l1 = false → l1 = l2 := by
  intro l1
  induction l1 with
  | nil =>
    intro l2 h12 _
    cases l2 with
    | nil => rfl
    | cons b bs => simp [charListLt] at h12
  | cons a as ih =>
    intro l2 h12 h21
    cases l2 with
    | nil => simp [charListLt] at h21
    | cons b bs =>
      simp only [charListLt, Bool.or_eq_false_iff, Bool.and_eq_false_iff,
        decide_eq_false_iff_not] at h12 h21
      have hab : a = b := le_antisymm (not_lt.mp h21.1) (not_lt.mp h12.1)
      rcases h12.2 with h | h
      · exact absurd hab h
      · rcases h21.2 with h2 | h2
        · exact absurd hab.symm h2
        · exact congrArg₂ List.cons hab (ih bs h h2)

theorem charListLt_asymm {l1 l2 : List Char}
    (h : charListLt l1 l2 = true) : charListLt l2 l1 = false := by
  by_contra hc
  have h2 : charListLt l2 l1 = true := by
    cases hh : charListLt l2 l1 with
    | true => rfl
    | false => exact absurd hh hc
  have := charListLt_trans _ _ _ h h2
  rw [charListLt_irrefl] at this
  exact Bool.false_ne_true this

theorem strLeB_refl (a : String) : strLeB a a = true := by
  simp [strLeB]

theorem strLeB_total (a b : String) : strLeB a b = true ∨ strLeB b a = true := by
  simp only [strLeB, strLtB, Bool.or_eq_true, decide_eq_true_eq]
  cases h1 : charListLt a.data b.data with
  | true => exact Or.inl (Or.inl rfl)
  | false =>
    cases h2 : charListLt b.data a.data with
    | true => exact Or.inr (Or.inl rfl)
    | false =>
      have : a.data = b.data := charListLt_connex _ _ h1 h2
      exact Or.inl (Or.inr (String.ext this))

theorem strLeB_antisymm {a b : String}
    (h1 : strLeB a b = true) (h2 : strLeB b a = true) : a = b := by
  simp only [strLeB, strLtB, Bool.or_eq_true, decide_eq_true_eq] at h1 h2
  rcases h1 with h1 | h1
  · rcases h2 with h2 | h2
    · exact absurd h1 (by simp [charListLt_asymm h2])
    · exact h2.symm
  · exact h1

theorem strLeB_trans {a b c : String}
    (h1 : strLeB a b = true) (h2 : strLeB b c = true) : strLeB a c = true := by
  simp only [strLeB, strLtB, Bool.or_eq_true, decide_eq_true_eq] at h1 h2 ⊢
  rcases h1 with h1 | h1
  · rcases h2 with h2 | h2
    · exact Or.inl (charListLt_trans _ _ _ h1 h2)
    · exact Or.inl (h2 ▸ h1)
  · rcases h2 with h2 | h2
    · exact Or.inl (h1 ▸ h2)
    · exact Or.inr (h1.trans h2)

theorem optStrLe_total (a b : Option String) : optStrLe a b = true ∨ optStrLe b a = true := by
  cases a with
  | none => exact Or.inl rfl
  | some x =>
    cases b with
    | none => exact Or.inr rfl
    | some y => exact strLeB_total x y

theorem optStrLe_antisymm {a b : Option String}
    (h1 : optStrLe a b = true) (h2 : optStrLe b a = true) : a = b := by
  cases a with
  | none =>
    cases b with
    | none => rfl
    | some y => simp [optStrLe] at h2
  | some x =>
    cases b with
    | none => simp [optStrLe] at h1
    | some y => exact congrArg Option.some (strLeB_antisymm h1 h2)

theorem optStrLe_trans {a b c : Option String}
    (h1 : optStrLe a b = true) (h2 : optStrLe b c = true) : optStrLe a c = true := by
  cases a with
  | none => cases c <;> rfl
  | some x =>
    cases b with
    | none => simp [optStrLe] at h1
    | some y =>
      cases c with
      | none => simp [optStrLe] at h2
      | some z => exact strLeB_trans h1 h2

theorem apptRel_trans {a b c : Appt} (h1 : apptRel a b) (h2 : apptRel b c) : apptRel a c := by
  unfold apptRel apptOrd at *
  by_cases hab : a.fecha = b.fecha
  · by_cases hbc : b.fecha = c.fecha
    · rw [if_pos hab] at h1
      rw [if_pos hbc] at h2
      rw [if_pos (hab.trans hbc)]
      exact optStrLe_trans h1 h2
    · rw [if_pos hab] at h1
      rw [if_neg hbc] at h2
      rw [if_neg (hab ▸ hbc), hab]
      exact h2
  · by_cases hbc : b.fecha = c.fecha
    · rw [if_neg hab] at h1
      rw [if_neg (hbc ▸ hab), ← hbc]
      exact h1
    · rw [if_neg hab] at h1
      rw [if_neg hbc] at h2
      by_cases hac : a.fecha = c.fecha
      · exfalso
        have : b.fecha = c.fecha := optStrLe_antisymm h2 (hac ▸ h1)
        exact hbc this
      · rw [if_neg hac]
        exact optStrLe_trans h1 h2

theorem apptRel_total (a b : Appt) : apptRel a b ∨ apptRel b a := by
  unfold apptRel apptOrd
  by_cases hab : a.fecha = b.fecha
  · rw [if_pos hab, if_pos hab.symm]
    exact optStrLe_total a.hora b.hora
  · rw [if_neg hab, if_neg (fun h => hab h.symm)]
    exact optStrLe_total a.fecha b.fecha

instance : IsTrans Appt apptRel := ⟨fun _ _ _ => apptRel_trans⟩

instance : IsTotal Appt apptRel := ⟨apptRel_total⟩

/-! ### Store lemmas -/

theorem countByDate_append (s t : List Appt) (d : String) :
    countByDate (s ++ t) d = countByDate s d + countByDate t d := by
  simp [countByDate, List.filter_append]

theorem countByDate_single (row : Appt) (d : String) :
    countByDate [row] d = if row.fecha = some d then 1 else 0 := by
  by_cases h : row.fecha = some d <;> simp [countByDate, h]

theorem sqlInsert_citas (row : Appt) (store : List Appt) :
    sqlInsertAppointments citasColumns row store = Except.ok (store ++ [row]) := rfl

theorem sqlInsert_adminCreate (row : Appt) (store : List Appt) :
    sqlInsertAppointments adminCreateColumns row store =
      Except.error "table appointments has no column named note" := rfl

/-! ### Case lemmas for the booking POST -/

theorem mis_citas_post_invalid (cfg : Config)
    (transport : String → String → Except String Unit) (today : YMD) (u : User)
    (store : List Appt) (f : BookingForm)
    (h : parse_date f.preferencia_fecha = none) :
    mis_citas_post cfg transport today u store f =
      ⟨[], store, Outcome.redirect msgInvalidDate "warning"⟩ := by
  simp [mis_citas_post, h]

theorem mis_citas_post_past (cfg : Config)
    (transport : String → String → Except String Unit) (today : YMD) (u : User)
    (store : List Appt) (f : BookingForm) (fecha : YMD)
    (h : parse_date f.preferencia_fecha = some fecha)
    (hlt : ymdLt fecha today = true) :
    mis_citas_post cfg transport today u store f =
      ⟨[], store, Outcome.redirect msgPastDate "warning"⟩ := by
  simp [mis_citas_post, h, hlt]

theorem mis_citas_post_full (cfg : Config)
    (transport : String → String → Except String Unit) (today : YMD) (u : User)
    (store : List Appt) (f : BookingForm) (fecha : YMD)
    (h : parse_date f.preferencia_fecha = some fecha)
    (hlt : ymdLt fecha today = false)
    (hcap : cfg.maxPerDay ≤ countByDate store (isoformat fecha)) :
    mis_citas_post cfg transport today u store f =
      ⟨[Event.countQuery (isoformat fecha) (countByDate store (isoformat fecha))], store,
        Outcome.redirect msgCapacity "warning"⟩ := by
  simp [mis_citas_post, h, hlt, hcap]

theorem mis_citas_post_accepts (cfg : Config)
    (transport : String → String → Except String Unit) (today : YMD) (u : User)
    (store : List Appt) (f : BookingForm) (fecha : YMD)
    (h : parse_date f.preferencia_fecha = some fecha)
    (hlt : ymdLt fecha today = false)
    (hcap : countByDate store (isoformat fecha) < cfg.maxPerDay) :
    mis_citas_post cfg transport today u store f =
      ⟨[Event.countQuery (isoformat fecha) (countByDate store (isoformat fecha)),
          Event.insertRow (bookedRow u fecha f)] ++ (mis_citas_notify cfg transport u).1,
        store ++ [bookedRow u fecha f],
        match (mis_citas_notify cfg transport u).2 with
        | Except.ok _ => Outcome.redirect msgBookingSuccess "success"
        | Except.error e => Outcome.serverError e⟩ := by
  have hcap' : ¬ cfg.maxPerDay ≤ countByDate store (isoformat fecha) := not_le.mpr hcap
  simp only [mis_citas_post, h, hlt, Bool.false_eq_true, if_false, hcap', sqlInsert_citas]
  rcases hn : mis_citas_notify cfg transport u with ⟨evs, r⟩
  cases r <;> simp

theorem mis_citas_post_store_cases (cfg : Config)
    (transport : String → String → Except String Unit) (today : YMD) (u : User)
    (store : List Appt) (f : BookingForm) :
    (mis_citas_post cfg transport today u store f).store = store ∨
      ∃ fecha, parse_date f.preferencia_fecha = some fecha ∧
        countByDate store (isoformat fecha) < cfg.maxPerDay ∧
        (mis_citas_post cfg transport today u store f).store =
          store ++ [bookedRow u fecha f] := by
  cases h : parse_date f.preferencia_fecha with
  | none => rw [mis_citas_post_invalid cfg transport today u store f h]; exact Or.inl rfl
  | some fecha =>
    cases hlt : ymdLt fecha today with
    | true => rw [mis_citas_post_past cfg transport today u store f fecha h hlt]; exact Or.inl rfl
    | false =>
      by_cases hcap : cfg.maxPerDay ≤ countByDate store (isoformat fecha)
      · rw [mis_citas_post_full cfg transport today u store f fecha h hlt hcap]
        exact Or.inl rfl
      · have hcap' := not_le.mp hcap
        rw [mis_citas_post_accepts cfg transport today u store f fecha h hlt hcap']
        exact Or.inr ⟨fecha, rfl, hcap', rfl⟩

/-! ### Store effect of the administrative paths -/

theorem admin_citas_post_store_some (cfg : Config)
    (transport : String → String → Except String Unit) (users : List User)
    (store : List Appt) (f : AdminCitasForm) (uid : Nat)
    (h : f.user_id = some uid) :
    (admin_citas_post cfg transport users store f).store =
      store ++ [adminCitasRow uid f] := by
  simp only [admin_citas_post, h, sqlInsert_citas]
  cases hf : users.find? (fun usr => decide (usr.id = uid)) with
  | none => simp
  | some usr =>
    by_cases he : truthy usr.email = true
    · simp only [he, if_true]
      rcases hs : send_email cfg transport (usr.email.getD "")
          "Cita creada por el equipo de SaludGo" with ⟨ev1, r⟩
      cases r <;> simp
    · simp [he]

theorem admin_appointments_create_store (cfg : Config)
    (transport : String → String → Except String Unit) (users : List User)
    (store : List Appt) (f : AdminCreateForm) :
    (admin_appointments_create cfg transport users store f).store = store := by
  simp only [admin_appointments_create]
  cases hf : users.find? (fun usr => decide (some usr.id = f.user_id)) with
  | none => rfl
  | some usr => simp [sqlInsert_adminCreate]

/-! ### Notification lemmas -/

theorem send_email_events (cfg : Config)
    (transport : String → String → Except String Unit) (toEmail subject : String) :
    ∀ e ∈ (send_email cfg transport toEmail subject).1, isEmailEvent e = true := by
  intro e he
  simp only [send_email] at he
  split at he
  · simp at he; subst he; rfl
  · split at he
    · simp at he; subst he; rfl
    · simp at he

theorem send_email_ok (cfg : Config)
    (transport : String → String → Except String Unit) (toEmail subject : String)
    (h : transport toEmail subject = Except.ok ()) :
    send_email cfg transport toEmail subject =
      ([Event.email toEmail subject], Except.ok ()) := by
  simp only [send_email, h]
  split <;> rfl

theorem step1_events (cfg : Config)
    (transport : String → String → Except String Unit) (u : User)
    (ev1 : List Event) (r1 : Except String Unit)
    (heq : (if truthy u.email then
        send_email cfg transport (u.email.getD "") "Cita agendada — SaludGo"
      else ([], Except.ok ())) = (ev1, r1)) :
    ∀ x ∈ ev1, isEmailEvent x = true := by
  intro x hx
  split at heq
  · have hv : ev1 = (send_email cfg transport (u.email.getD "") "Cita agendada — SaludGo").1 := by
      rw [heq]
    exact send_email_events cfg transport _ _ x (hv ▸ hx)
  · have hv : ev1 = [] := by
      have := congrArg Prod.fst heq
      exact this.symm
    rw [hv] at hx
    simp at hx

theorem mis_citas_notify_events (cfg : Config)
    (transport : String → String → Except String Unit) (u : User) :
    ∀ e ∈ (mis_citas_notify cfg transport u).1, isEmailEvent e = true := by
  intro e he
  unfold mis_citas_notify at he
  rcases heq : (if truthy u.email then
      send_email cfg transport (u.email.getD "") "Cita agendada — SaludGo"
    else ([], Except.ok ())) with ⟨ev1, r1⟩
  rw [heq] at he
  have hev1 := step1_events cfg transport u ev1 r1 heq
  cases r1 with
  | error e1 => exact hev1 e he
  | ok a =>
    have he2 : e ∈ (if cfg.adminEmail = "" then (ev1, Except.ok ())
        else (ev1 ++ (send_email cfg transport cfg.adminEmail "Nueva cita programada — SaludGo").1,
          (send_email cfg transport cfg.adminEmail "Nueva cita programada — SaludGo").2)).1 := he
    by_cases ha : cfg.adminEmail = ""
    · rw [if_pos ha] at he2
      exact hev1 e he2
    · rw [if_neg ha] at he2
      rcases List.mem_append.mp he2 with h | h
      · exact hev1 e h
      · exact send_email_events cfg transport _ _ e h

theorem mis_citas_notify_ok (cfg : Config)
    (transport : String → String → Except String Unit) (u : User)
    (hok : ∀ a s, transport a s = Except.ok ()) :
    mis_citas_notify cfg transport u =
      ((if truthy u.email then [Event.email (u.email.getD "") "Cita agendada — SaludGo"] else []) ++
        (if cfg.adminEmail = "" then []
          else [Event.email cfg.adminEmail "Nueva cita programada — SaludGo"]),
        Except.ok ()) := by
  by_cases ht : truthy u.email = true <;>
    by_cases ha : cfg.adminEmail = "" <;>
      simp [mis_citas_notify, ht, ha, send_email_ok cfg transport _ _ (hok _ _)]

theorem mis_citas_post_accepts_outcome (cfg : Config)
    (transport : String → String → Except String Unit) (today : YMD) (u : User)
    (store : List Appt) (f : BookingForm) (fecha : YMD)
    (h : parse_date f.preferencia_fecha = some fecha)
    (hlt : ymdLt fecha today = false)
    (hcap : countByDate store (isoformat fecha) < cfg.maxPerDay) :
    (mis_citas_post cfg transport today u store f).outcome =
        Outcome.redirect msgBookingSuccess "success" ∨
      ∃ e, (mis_citas_post cfg transport today u store f).outcome = Outcome.serverError e := by
  rw [mis_citas_post_accepts cfg transport today u store f fecha h hlt hcap]
  rcases hn : (mis_citas_notify cfg transport u).2 with e | v
  · exact Or.inr ⟨e, by simp [hn]⟩
  · exact Or.inl (by simp [hn])

/-! ### The capacity invariant under self-service sequences -/

theorem countByDate_runOp_le (cfg : Config)
    (transport : String → String → Except String Unit) (today : YMD)
    (users : List User) (store : List Appt) (op : CoreOp) (d : String)
    (h : countByDate store d ≤ cfg.maxPerDay) :
    countByDate (runOp cfg transport today users store op) d ≤ cfg.maxPerDay := by
  cases op with
  | adminCreate f =>
    rw [runOp, admin_appointments_create_store]
    exact h
  | selfBook u f =>
    rw [runOp]
    rcases mis_citas_post_store_cases cfg transport today u store f with hs | ⟨fecha, _, hcap, hs⟩
    · rw [hs]; exact h
    · rw [hs, countByDate_append, countByDate_single]
      by_cases hf : isoformat fecha = d
      · subst hf
        rw [if_pos (show (bookedRow u fecha f).fecha = some (isoformat fecha) from rfl)]
        omega
      · rw [if_neg (by simp [bookedRow, hf])]
        omega

/-! ### Concrete fixtures used by witnesses and counterexamples -/

/-- Default configuration: daily maximum 10, default admin address, SMTP unset. -/
def cfgDefault : Config := ⟨10, "guillermonieto.200391@gmail.com", "", "", ""⟩

/-- Configuration with a complete SMTP_* environment. -/
def cfgSmtp : Config := ⟨10, "guillermonieto.200391@gmail.com", "smtp.example.com", "mailer", "secreto"⟩

/-- A transport that always delivers. -/
def okTransport : String → String → Except String Unit := fun _ _ => Except.ok ()

/-- A transport that always raises. -/
def failTransport : String → String → Except String Unit := fun _ _ => Except.error "SMTPException"

/-- A transport that raises only for the administrative address. -/
def adminFailTransport : String → String → Except String Unit := fun dest _ =>
  if dest = "guillermonieto.200391@gmail.com" then Except.error "ConnectionRefused"
  else Except.ok ()

/-- A registered account with an email address on file. -/
def userAna : User := ⟨1, "ana", some "ana@example.com"⟩

/-- A registered account without an email address. -/
def userNoEmail : User := ⟨2, "benito", none⟩

/-- The server date used by concrete scenarios. -/
def today2025 : YMD := ⟨2025, 10, 12⟩

/-- A valid self-service booking request for a future date. -/
def bookForm2030 : BookingForm := ⟨"", "chequeo", "2030-01-01", "10:00", ""⟩

/-- An `admin_citas` creation request for the same date. -/
def adminForm2030 : AdminCitasForm := ⟨some 2, "2030-01-01", "", "", "", "", ""⟩

/-- An `admin_appointments_create` request for the same date. -/
def adminCreateForm2030 : AdminCreateForm := ⟨some 1, "2030-01-01", "", "", "", "", ""⟩

/-- A store already holding ten appointments on 2030-01-01. -/
def fullStore10 : List Appt :=
  List.replicate 10 ⟨3, some "2030-01-01", none, "Consulta", "Por definir", "", "Agendada"⟩

/-- The appointments table after `n` repetitions of the same `admin_citas`
creation request, starting from an empty table. -/
def adminCitasRepeat (n : Nat) : List Appt :=
  (List.range n).foldl
    (fun st _ => (admin_citas_post cfgDefault okTransport [userNoEmail] st adminForm2030).store) []

/-! ### Claim C1 -/

/-- Claim C1 as stated is false: `admin_citas` performs no capacity check, so
a sequence of eleven administrative creation requests for 2030-01-01 leaves
eleven appointments on that date, exceeding the configured daily maximum of
ten. -/
theorem C1_cex_admin_citas_overfills :
    cfgDefault.maxPerDay < countByDate (adminCitasRepeat 11) "2030-01-01" := by decide

/-- Claim C1 (amended): for every calendar date, after any sequence of
self-service bookings (`mis_citas`) and `admin_appointments_create` calls,
the number of appointments on that date never exceeds the configured daily
maximum — the `admin_citas` path is excluded because it performs no capacity
check. -/
theorem C1_amended_capacity_invariant (cfg : Config)
    (transport : String → String → Except String Unit) (today : YMD)
    (users : List User) (ops : List CoreOp) (store : List Appt) (d : String)
    (h0 : countByDate store d ≤ cfg.maxPerDay) :
    countByDate (ops.foldl (runOp cfg transport today users) store) d ≤ cfg.maxPerDay := by
  induction ops generalizing store with
  | nil => simpa using h0
  | cons op rest ih =>
    rw [List.foldl_cons]
    exact ih _ (countByDate_runOp_le cfg transport today users store op d h0)

/-- Witness for the amended claim C1 at a concrete booking sequence. -/
theorem C1_amended_capacity_invariant_witness :
    countByDate
        ([CoreOp.selfBook userAna bookForm2030,
          CoreOp.adminCreate adminCreateForm2030].foldl
          (runOp cfgDefault okTransport today2025 [userAna]) [])
        "2030-01-01" ≤ cfgDefault.maxPerDay :=
  C1_amended_capacity_invariant cfgDefault okTransport today2025 [userAna] _ [] _ (by decide)

/-! ### Claim C2 -/

/-- Claim C2: for a parseable, non-past date, the self-service booking admits
the request (appends exactly the booked row) iff the current count on the
target date is strictly below the daily maximum; at or above the maximum the
request is rejected with the capacity flash and no row is written. -/
theorem C2_capacity_decision (cfg : Config)
    (transport : String → String → Except String Unit) (today : YMD) (u : User)
    (store : List Appt) (f : BookingForm) (fecha : YMD)
    (hparse : parse_date f.preferencia_fecha = some fecha)
    (hpast : ymdLt fecha today = false) :
    (countByDate store (isoformat fecha) < cfg.maxPerDay ↔
      (mis_citas_post cfg transport today u store f).store =
        store ++ [bookedRow u fecha f]) ∧
    (cfg.maxPerDay ≤ countByDate store (isoformat fecha) →
      (mis_citas_post cfg transport today u store f).outcome =
          Outcome.redirect msgCapacity "warning" ∧
        (mis_citas_post cfg transport today u store f).store = store) := by
  constructor
  · constructor
    · intro hcap
      rw [mis_citas_post_accepts cfg transport today u store f fecha hparse hpast hcap]
    · intro hs
      by_contra hcap
      rw [mis_citas_post_full cfg transport today u store f fecha hparse hpast
        (not_lt.mp hcap)] at hs
      have := congrArg List.length hs
      simp at this
  · intro hcap
    rw [mis_citas_post_full cfg transport today u store f fecha hparse hpast hcap]
    exact ⟨rfl, rfl⟩

/-- Witness for claim C2 at a concrete admitted and a concrete rejected state. -/
theorem C2_capacity_decision_witness :
    ((countByDate fullStore10 (isoformat ⟨2030, 1, 1⟩) < cfgDefault.maxPerDay ↔
      (mis_citas_post cfgDefault okTransport today2025 userAna fullStore10 bookForm2030).store =
        fullStore10 ++ [bookedRow userAna ⟨2030, 1, 1⟩ bookForm2030]) ∧
    (cfgDefault.maxPerDay ≤ countByDate fullStore10 (isoformat ⟨2030, 1, 1⟩) →
      (mis_citas_post cfgDefault okTransport today2025 userAna fullStore10 bookForm2030).outcome =
          Outcome.redirect msgCapacity "warning" ∧
        (mis_citas_post cfgDefault okTransport today2025 userAna fullStore10 bookForm2030).store =
          fullStore10)) :=
  C2_capacity_decision cfgDefault okTransport today2025 userAna fullStore10 bookForm2030
    ⟨2030, 1, 1⟩ (by decide) (by decide)

/-! ### Claim C3 -/

/-- Claim C3 as stated is false: with ten appointments already on 2030-01-01
(the daily maximum), the `admin_citas` creation path still persists an
eleventh row and reports success instead of rejecting the request. -/
theorem C3_cex_admin_citas_no_capacity_check :
    cfgDefault.maxPerDay ≤ countByDate fullStore10 "2030-01-01" ∧
    (admin_citas_post cfgDefault okTransport [userNoEmail] fullStore10 adminForm2030).store =
      fullStore10 ++ [adminCitasRow 2 adminForm2030] ∧
    (admin_citas_post cfgDefault okTransport [userNoEmail] fullStore10 adminForm2030).outcome =
      Outcome.redirect "Cita creada para el usuario." "success" := by decide

/-- Claim C3 (amended): administrative creation shares neither the date
validation nor the capacity check of self-service booking — `admin_citas`
persists a row whenever a user id is submitted, regardless of the count on
the target date, while `admin_appointments_create` never persists any row. -/
theorem C3_amended_admin_paths (cfg : Config)
    (transport : String → String → Except String Unit) (users : List User)
    (store : List Appt) (f : AdminCitasForm) (uid : Nat)
    (h : f.user_id = some uid) :
    (admin_citas_post cfg transport users store f).store = store ++ [adminCitasRow uid f] ∧
    ∀ f2 : AdminCreateForm,
      (admin_appointments_create cfg transport users store f2).store = store :=
  ⟨admin_citas_post_store_some cfg transport users store f uid h,
   fun f2 => admin_appointments_create_store cfg transport users store f2⟩

/-- Witness for the amended claim C3 at a concrete full store. -/
theorem C3_amended_admin_paths_witness :
    (admin_citas_post cfgDefault okTransport [userNoEmail] fullStore10 adminForm2030).store =
        fullStore10 ++ [adminCitasRow 2 adminForm2030] ∧
    ∀ f2 : AdminCreateForm,
      (admin_appointments_create cfgDefault okTransport [userNoEmail] fullStore10 f2).store =
        fullStore10 :=
  C3_amended_admin_paths cfgDefault okTransport [userNoEmail] fullStore10 adminForm2030 2 rfl

/-! ### Claim C4 -/

/-- Claim C4: date validation precedes any store access — an unparsable date
string yields the invalid-date rejection and a date before today yields the
past-date rejection, in both cases with an empty event trace (no count query,
no insert) and an unchanged store, even when capacity would be available. -/
theorem C4_date_validation_first (cfg : Config)
    (transport : String → String → Except String Unit) (today : YMD) (u : User)
    (store : List Appt) (f : BookingForm) :
    (parse_date f.preferencia_fecha = none →
      mis_citas_post cfg transport today u store f =
        ⟨[], store, Outcome.redirect msgInvalidDate "warning"⟩) ∧
    (∀ fecha, parse_date f.preferencia_fecha = some fecha → ymdLt fecha today = true →
      mis_citas_post cfg transport today u store f =
        ⟨[], store, Outcome.redirect msgPastDate "warning"⟩) :=
  ⟨fun h => mis_citas_post_invalid cfg transport today u store f h,
   fun fecha h hlt => mis_citas_post_past cfg transport today u store f fecha h hlt⟩

/-- Witness for claim C4: an unparsable date and a past date, both on an
empty (capacity-available) store. -/
theorem C4_date_validation_first_witness :
    mis_citas_post cfgDefault okTransport today2025 userAna [] ⟨"", "", "hola", "", ""⟩ =
      ⟨[], [], Outcome.redirect msgInvalidDate "warning"⟩ ∧
    mis_citas_post cfgDefault okTransport today2025 userAna [] ⟨"", "", "2020-01-01", "", ""⟩ =
      ⟨[], [], Outcome.redirect msgPastDate "warning"⟩ :=
  ⟨(C4_date_validation_first cfgDefault okTransport today2025 userAna []
      ⟨"", "", "hola", "", ""⟩).1 (by decide),
   (C4_date_validation_first cfgDefault okTransport today2025 userAna []
      ⟨"", "", "2020-01-01", "", ""⟩).2 ⟨2020, 1, 1⟩ (by decide) (by decide)⟩

/-! ### Claim C5 -/

/-- Claim C5: whenever the booking POST is rejected — invalid date, past
date, or capacity exceeded — the appointments store is exactly what it was
before the call. -/
theorem C5_reject_preserves_store (cfg : Config)
    (transport : String → String → Except String Unit) (today : YMD) (u : User)
    (store : List Appt) (f : BookingForm) :
    ((mis_citas_post cfg transport today u store f).outcome =
        Outcome.redirect msgInvalidDate "warning" ∨
      (mis_citas_post cfg transport today u store f).outcome =
        Outcome.redirect msgPastDate "warning" ∨
      (mis_citas_post cfg transport today u store f).outcome =
        Outcome.redirect msgCapacity "warning") →
    (mis_citas_post cfg transport today u store f).store = store := by
  intro h
  cases hp : parse_date f.preferencia_fecha with
  | none => rw [mis_citas_post_invalid cfg transport today u store f hp]
  | some fecha =>
    cases hlt : ymdLt fecha today with
    | true => rw [mis_citas_post_past cfg transport today u store f fecha hp hlt]
    | false =>
      by_cases hcap : cfg.maxPerDay ≤ countByDate store (isoformat fecha)
      · rw [mis_citas_post_full cfg transport today u store f fecha hp hlt hcap]
      · exfalso
        rcases mis_citas_post_accepts_outcome cfg transport today u store f fecha hp hlt
            (not_le.mp hcap) with ho | ⟨e, ho⟩ <;>
          rcases h with h | h | h <;> rw [ho] at h <;> simp_all [msgBookingSuccess,
            msgInvalidDate, msgPastDate, msgCapacity]

/-- Witness for claim C5 at a concrete capacity rejection. -/
theorem C5_reject_preserves_store_witness :
    (mis_citas_post cfgDefault okTransport today2025 userAna fullStore10 bookForm2030).store =
      fullStore10 :=
  C5_reject_preserves_store cfgDefault okTransport today2025 userAna fullStore10 bookForm2030
    (Or.inr (Or.inr (by decide)))

/-! ### Claim C6 -/

/-- Claim C6 as stated is false: with a complete SMTP configuration and a
failing transport, an admitted booking commits its row and the transport
exception then propagates out of the handler — the caller sees a server
error, not the success redirect, although the persisted row remains. -/
theorem C6_cex_notify_failure_propagates :
    (mis_citas_post cfgSmtp failTransport today2025 userAna [] bookForm2030).outcome =
      Outcome.serverError "SMTPException" ∧
    (mis_citas_post cfgSmtp failTransport today2025 userAna [] bookForm2030).store =
      [bookedRow userAna ⟨2030, 1, 1⟩ bookForm2030] := by decide

/-- Claim C6 (amended): notification dispatch happens only after the
appointment row is committed — the event trace of an admitted booking is the
count query, then the insert, then nothing but email events — and for every
transport, failing or not, the persisted row remains: the store is extended
by exactly the booked row. A transport exception does, however, propagate to
the caller as a server error after the commit (and the slow-transport half
of the claim is a timing property outside this model). -/
theorem C6_amended_commit_before_notify (cfg : Config)
    (transport : String → String → Except String Unit) (today : YMD) (u : User)
    (store : List Appt) (f : BookingForm) (fecha : YMD)
    (hparse : parse_date f.preferencia_fecha = some fecha)
    (hpast : ymdLt fecha today = false)
    (hcap : countByDate store (isoformat fecha) < cfg.maxPerDay) :
    (mis_citas_post cfg transport today u store f).store = store ++ [bookedRow u fecha f] ∧
    ∃ evs, (mis_citas_post cfg transport today u store f).events =
        Event.countQuery (isoformat fecha) (countByDate store (isoformat fecha)) ::
          Event.insertRow (bookedRow u fecha f) :: evs ∧
      ∀ e ∈ evs, isEmailEvent e = true := by
  rw [mis_citas_post_accepts cfg transport today u store f fecha hparse hpast hcap]
  exact ⟨rfl, (mis_citas_notify cfg transport u).1, rfl,
    mis_citas_notify_events cfg transport u⟩

/-- Witness for the amended claim C6, with the always-failing transport. -/
theorem C6_amended_commit_before_notify_witness :
    (mis_citas_post cfgSmtp failTransport today2025 userAna [] bookForm2030).store =
        [] ++ [bookedRow userAna ⟨2030, 1, 1⟩ bookForm2030] ∧
    ∃ evs, (mis_citas_post cfgSmtp failTransport today2025 userAna [] bookForm2030).events =
        Event.countQuery (isoformat ⟨2030, 1, 1⟩) (countByDate [] (isoformat ⟨2030, 1, 1⟩)) ::
          Event.insertRow (bookedRow userAna ⟨2030, 1, 1⟩ bookForm2030) :: evs ∧
      ∀ e ∈ evs, isEmailEvent e = true :=
  C6_amended_commit_before_notify cfgSmtp failTransport today2025 userAna [] bookForm2030
    ⟨2030, 1, 1⟩ (by decide) (by decide) (by decide)

/-! ### Claim C7 -/

/-- Claim C7 as stated is false: with both addresses present, a successful
booking can produce a single notification message — the transport exception
on the administrative copy aborts the fan-out after the owner message, yet
the booking remains persisted. -/
theorem C7_cex_admin_copy_lost :
    (mis_citas_post cfgSmtp adminFailTransport today2025 userAna [] bookForm2030).store =
      [bookedRow userAna ⟨2030, 1, 1⟩ bookForm2030] ∧
    emailEvents
        (mis_citas_post cfgSmtp adminFailTransport today2025 userAna [] bookForm2030).events =
      [Event.email "ana@example.com" "Cita agendada — SaludGo"] ∧
    ¬ (emailEvents
        (mis_citas_post cfgSmtp adminFailTransport today2025 userAna [] bookForm2030).events).length
        = 2 := by decide

/-- Claim C7 (amended): when the notification transport does not fail, a
successful self-service booking produces exactly one message to the owner
when an address is on file and exactly one to the administrative address
when configured, and an absent address on either side silently skips that
message; an exception from the transport can instead cut the fan-out short
after the commit. -/
theorem C7_amended_notification_fanout (cfg : Config)
    (transport : String → String → Except String Unit) (today : YMD) (u : User)
    (store : List Appt) (f : BookingForm) (fecha : YMD)
    (hok : ∀ a s, transport a s = Except.ok ())
    (hparse : parse_date f.preferencia_fecha = some fecha)
    (hpast : ymdLt fecha today = false)
    (hcap : countByDate store (isoformat fecha) < cfg.maxPerDay) :
    emailEvents (mis_citas_post cfg transport today u store f).events =
      (if truthy u.email then [Event.email (u.email.getD "") "Cita agendada — SaludGo"]
        else []) ++
      (if cfg.adminEmail = "" then []
        else [Event.email cfg.adminEmail "Nueva cita programada — SaludGo"]) ∧
    (mis_citas_post cfg transport today u store f).outcome =
      Outcome.redirect msgBookingSuccess "success" := by
  rw [mis_citas_post_accepts cfg transport today u store f fecha hparse hpast hcap,
    mis_citas_notify_ok cfg transport u hok]
  constructor
  · by_cases ht : truthy u.email = true <;> by_cases ha : cfg.adminEmail = "" <;>
      simp [emailEvents, isEmailEvent, ht, ha]
  · simp

/-- Witness for the amended claim C7: owner address on file, administrative
address configured, reliable transport. -/
theorem C7_amended_notification_fanout_witness :
    emailEvents (mis_citas_post cfgDefault okTransport today2025 userAna [] bookForm2030).events =
      (if truthy userAna.email then
          [Event.email (userAna.email.getD "") "Cita agendada — SaludGo"]
        else []) ++
      (if cfgDefault.adminEmail = "" then []
        else [Event.email cfgDefault.adminEmail "Nueva cita programada — SaludGo"]) ∧
    (mis_citas_post cfgDefault okTransport today2025 userAna [] bookForm2030).outcome =
      Outcome.redirect msgBookingSuccess "success" :=
  C7_amended_notification_fanout cfgDefault okTransport today2025 userAna [] bookForm2030
    ⟨2030, 1, 1⟩ (fun _ _ => rfl) (by decide) (by decide) (by decide)

/-! ### Claim C8: the ISO rendering is order-preserving -/

/-- Digit bounds under which `isoformat` is a faithful fixed-width
rendering. -/
def digitsFit (x : YMD) : Prop := x.year ≤ 9999 ∧ x.month ≤ 99 ∧ x.day ≤ 99

instance (x : YMD) : Decidable (digitsFit x) := by
  unfold digitsFit; infer_instance

theorem digitChar_lt_ball : ∀ a < 10, ∀ b < 10,
    ((digitChar a < digitChar b) ↔ a < b) := by decide

theorem digitChar_eq_ball : ∀ a < 10, ∀ b < 10,
    ((digitChar a = digitChar b) ↔ a = b) := by decide

theorem digitChar_lt {a b : Nat} (ha : a < 10) (hb : b < 10) :
    (digitChar a < digitChar b) ↔ a < b := digitChar_lt_ball a ha b hb

theorem digitChar_eq {a b : Nat} (ha : a < 10) (hb : b < 10) :
    (digitChar a = digitChar b) ↔ a = b := digitChar_eq_ball a ha b hb

theorem isoformat_data (x : YMD) : (isoformat x).data =
    [digitChar (x.year / 1000), digitChar (x.year / 100 % 10), digitChar (x.year / 10 % 10),
     digitChar (x.year % 10), '-', digitChar (x.month / 10), digitChar (x.month % 10), '-',
     digitChar (x.day / 10), digitChar (x.day % 10)] := rfl

theorem charListLt_isoformat (a b : YMD) (ha : digitsFit a) (hb : digitsFit b) :
    (charListLt (isoformat a).data (isoformat b).data = true) ↔ ymdLt a b = true := by
  obtain ⟨hay, ham, had⟩ := ha
  obtain ⟨hby, hbm, hbd⟩ := hb
  have h1 : a.year / 1000 < 10 := by omega
  have h2 : a.year / 100 % 10 < 10 := by omega
  have h3 : a.year / 10 % 10 < 10 := by omega
  have h4 : a.year % 10 < 10 := by omega
  have h5 : a.month / 10 < 10 := by omega
  have h6 : a.month % 10 < 10 := by omega
  have h7 : a.day / 10 < 10 := by omega
  have h8 : a.day % 10 < 10 := by omega
  have g1 : b.year / 1000 < 10 := by omega
  have g2 : b.year / 100 % 10 < 10 := by omega
  have g3 : b.year / 10 % 10 < 10 := by omega
  have g4 : b.year % 10 < 10 := by omega
  have g5 : b.month / 10 < 10 := by omega
  have g6 : b.month % 10 < 10 := by omega
  have g7 : b.day / 10 < 10 := by omega
  have g8 : b.day % 10 < 10 := by omega
  rw [isoformat_data, isoformat_data]
  simp only [charListLt, Bool.or_eq_true, Bool.and_eq_true, decide_eq_true_eq,
    ymdLt, lt_irrefl, false_or, false_and, and_false, or_false, true_and, and_true]
  rw [digitChar_lt h1 g1, digitChar_eq h1 g1, digitChar_lt h2 g2, digitChar_eq h2 g2,
    digitChar_lt h3 g3, digitChar_eq h3 g3, digitChar_lt h4 g4, digitChar_eq h4 g4,
    digitChar_lt h5 g5, digitChar_eq h5 g5, digitChar_lt h6 g6, digitChar_eq h6 g6,
    digitChar_lt h7 g7, digitChar_eq h7 g7, digitChar_lt h8 g8]
  simp only [Bool.false_eq_true, and_false, or_false]
  omega

theorem isoformat_inj (a b : YMD) (ha : digitsFit a) (hb : digitsFit b) :
    isoformat a = isoformat b ↔ a = b := by
  obtain ⟨hay, ham, had⟩ := ha
  obtain ⟨hby, hbm, hbd⟩ := hb
  constructor
  · intro h
    have hd := congrArg String.data h
    rw [isoformat_data, isoformat_data] at hd
    simp only [List.cons.injEq, and_true] at hd
    obtain ⟨e1, e2, e3, e4, _, e5, e6, _, e7, e8⟩ := hd
    rw [digitChar_eq (by omega) (by omega)] at e1 e2 e3 e4 e5 e6 e7 e8
    cases a with
    | mk ay am ad =>
      cases b with
      | mk by' bm bd =>
        simp only [YMD.mk.injEq]
        simp only at e1 e2 e3 e4 e5 e6 e7 e8 hay ham had hby hbm hbd
        omega
  · intro h
    rw [h]

theorem strLeB_isoformat (a b : YMD) (ha : digitsFit a) (hb : digitsFit b) :
    (strLeB (isoformat a) (isoformat b) = true) ↔ ymdLe a b = true := by
  simp only [strLeB, strLtB, ymdLe, Bool.or_eq_true, decide_eq_true_eq]
  rw [charListLt_isoformat a b ha hb, isoformat_inj a b ha hb]

/-! ### Date arithmetic stays within rendering bounds -/

theorem daysInMonth_pos (y m : Nat) : 1 ≤ daysInMonth y m := by
  unfold daysInMonth
  split
  · split <;> omega
  · split <;> omega

theorem daysInMonth_le31 (y m : Nat) : daysInMonth y m ≤ 31 := by
  unfold daysInMonth
  split
  · split <;> omega
  · split <;> omega

theorem validYMD_nextDay {x : YMD} (h : validYMD x) : validYMD (nextDay x) := by
  obtain ⟨h1, h2, h3, h4⟩ := h
  unfold nextDay
  split
  next hlt =>
    exact ⟨h1, h2, by show 1 ≤ x.day + 1; omega, by
      show x.day + 1 ≤ daysInMonth x.year x.month
      omega⟩
  · split
    next hm =>
      exact ⟨by show 1 ≤ x.month + 1; omega, by show x.month + 1 ≤ 12; omega,
        le_refl 1, by
          show 1 ≤ daysInMonth x.year (x.month + 1)
          exact daysInMonth_pos _ _⟩
    next hm =>
      exact ⟨le_refl 1, by show (1 : Nat) ≤ 12; omega, le_refl 1, by
        show 1 ≤ daysInMonth (x.year + 1) 1
        exact daysInMonth_pos _ _⟩

theorem nextDay_year_le (x : YMD) : (nextDay x).year ≤ x.year + 1 := by
  unfold nextDay
  split
  · show x.year ≤ x.year + 1
    omega
  · split
    · show x.year ≤ x.year + 1
      omega
    · show x.year + 1 ≤ x.year + 1
      omega

theorem addDays_year_le (x : YMD) (n : Nat) : (addDays x n).year ≤ x.year + n := by
  induction n with
  | zero => simp [addDays]
  | succ k ih =>
    have := nextDay_year_le (addDays x k)
    rw [addDays]
    omega

theorem validYMD_addDays {x : YMD} (h : validYMD x) (n : Nat) : validYMD (addDays x n) := by
  induction n with
  | zero => simpa [addDays] using h
  | succ k ih =>
    rw [addDays]
    exact validYMD_nextDay ih

theorem digitsFit_of_valid {x : YMD} (h : validYMD x) (hy : x.year ≤ 9999) : digitsFit x := by
  obtain ⟨h1, h2, h3, h4⟩ := h
  have := daysInMonth_le31 x.year x.month
  exact ⟨hy, by omega, by omega⟩

/-! ### Membership in the disabled-date list -/

theorem mem_filterMap_count (store : List Appt) (s : String) :
    ((store.filterMap (fun a => a.fecha)).filter (fun t => decide (t = s))).length =
      countByDate store s := by
  induction store with
  | nil => rfl
  | cons a rest ih =>
    cases hf : a.fecha with
    | none => simp [List.filterMap_cons, hf, countByDate, List.filter_cons, ih]
    | some v =>
      by_cases hv : v = s
      · subst hv
        simpa [List.filterMap_cons, hf, countByDate, List.filter_cons] using ih
      · simpa [List.filterMap_cons, hf, countByDate, List.filter_cons, hv] using ih

theorem filter_filter_count (l : List String) (p : String → Bool) (s : String)
    (hp : p s = true) :
    ((l.filter p).filter (fun t => decide (t = s))).length =
      (l.filter (fun t => decide (t = s))).length := by
  simp only [List.filter_filter]
  congr 1
  refine List.filter_congr ?_
  intro a _
  by_cases ha : a = s
  · subst ha
    simp [hp]
  · simp [ha]

theorem mem_of_count_pos (l : List String) (s : String)
    (h : 1 ≤ (l.filter (fun t => decide (t = s))).length) : s ∈ l := by
  have hne : l.filter (fun t => decide (t = s)) ≠ [] := by
    intro hnil
    rw [hnil] at h
    simp at h
  obtain ⟨x, hx⟩ := List.exists_mem_of_ne_nil _ hne
  obtain ⟨hxl, hxs⟩ := List.mem_filter.mp hx
  exact (of_decide_eq_true hxs) ▸ hxl

theorem mem_disabled_iff (cfg : Config) (today : YMD) (u : User) (store : List Appt)
    (s : String) (hmax : 1 ≤ cfg.maxPerDay) :
    s ∈ (mis_citas_get cfg today u store).disabled_dates ↔
      (strLeB (isoformat today) s = true ∧
        strLeB s (isoformat (addDays today 30)) = true ∧
        cfg.maxPerDay ≤ countByDate store s) := by
  simp only [mis_citas_get, List.mem_filter, List.mem_dedup, Bool.and_eq_true,
    decide_eq_true_eq]
  constructor
  · rintro ⟨⟨hmem, hle1, hle2⟩, hcnt⟩
    rw [filter_filter_count _ _ s (by simp [hle1, hle2]), mem_filterMap_count] at hcnt
    exact ⟨hle1, hle2, hcnt⟩
  · rintro ⟨hle1, hle2, hcnt⟩
    have hm2 : s ∈ store.filterMap (fun a => a.fecha) := by
      refine mem_of_count_pos _ s ?_
      rw [mem_filterMap_count]
      omega
    refine ⟨⟨hm2, hle1, hle2⟩, ?_⟩
    rw [filter_filter_count _ _ s (by simp [hle1, hle2]), mem_filterMap_count]
    exact hcnt

/-- A store holding ten appointments on 2025-10-20, within the horizon of
`today2025`. -/
def nearFull10 : List Appt :=
  List.replicate 10 ⟨3, some "2025-10-20", none, "Consulta", "Por definir", "", "Agendada"⟩

/-- Claim C8: for a valid server date with headroom to the date ceiling and
any date whose fields fit the ISO rendering, the availability query of
`mis_citas` reports the date as disabled exactly when it lies in the
inclusive window from today to today plus 30 days (the default horizon) and
its appointment count has reached the configured daily maximum. -/
theorem C8_disabled_dates (cfg : Config) (today d : YMD) (u : User) (store : List Appt)
    (hmax : 1 ≤ cfg.maxPerDay) (hvt : validYMD today) (hy : today.year + 30 ≤ 9999)
    (hd : digitsFit d) :
    isoformat d ∈ (mis_citas_get cfg today u store).disabled_dates ↔
      (ymdLe today d = true ∧ ymdLe d (addDays today 30) = true ∧
        cfg.maxPerDay ≤ countByDate store (isoformat d)) := by
  have hft : digitsFit today := digitsFit_of_valid hvt (by omega)
  have hvh : validYMD (addDays today 30) := validYMD_addDays hvt 30
  have hfh : digitsFit (addDays today 30) :=
    digitsFit_of_valid hvh (le_trans (addDays_year_le today 30) hy)
  rw [mem_disabled_iff cfg today u store (isoformat d) hmax,
    strLeB_isoformat today d hft hd, strLeB_isoformat d (addDays today 30) hd hfh]

/-- Witness for claim C8: on `today2025` with ten appointments on
2025-10-20, that date is reported as disabled exactly as the claim states. -/
theorem C8_disabled_dates_witness :
    isoformat ⟨2025, 10, 20⟩ ∈
        (mis_citas_get cfgDefault today2025 userAna nearFull10).disabled_dates ↔
      (ymdLe today2025 ⟨2025, 10, 20⟩ = true ∧
        ymdLe ⟨2025, 10, 20⟩ (addDays today2025 30) = true ∧
        cfgDefault.maxPerDay ≤ countByDate nearFull10 (isoformat ⟨2025, 10, 20⟩)) :=
  C8_disabled_dates cfgDefault today2025 ⟨2025, 10, 20⟩ userAna nearFull10
    (by decide) (by decide) (by decide) (by decide)

/-! ### Claim C9 -/

/-- Claim C9: the listing of a user's appointments contains exactly the
appointments owned by that user — it is a permutation of the user's rows —
and is ordered ascending by date and then by time-of-day (the `ORDER BY
fecha, hora` order). -/
theorem C9_list_by_owner (cfg : Config) (today : YMD) (u : User) (store : List Appt) :
    ((mis_citas_get cfg today u store).my_appointments).Perm
        (store.filter (fun a => decide (a.user_id = u.id))) ∧
    List.Sorted apptRel (mis_citas_get cfg today u store).my_appointments :=
  ⟨List.perm_insertionSort apptRel _, List.sorted_insertionSort apptRel _⟩

/-! ### Claim C10 -/

/-- Claim C10: `admin_appointments_create` never persists a row — for every
request the appointments table is unchanged — and whenever the submitted
user id matches a registered user the handler fails with the sqlite storage
error for the nonexistent `note` column (the schema defines `motivo`). -/
theorem C10_admin_create_always_fails (cfg : Config)
    (transport : String → String → Except String Unit) (users : List User)
    (store : List Appt) (f : AdminCreateForm) :
    (admin_appointments_create cfg transport users store f).store = store ∧
    ((∃ usr ∈ users, f.user_id = some usr.id) →
      (admin_appointments_create cfg transport users store f).outcome =
        Outcome.serverError "table appointments has no column named note") := by
  refine ⟨admin_appointments_create_store cfg transport users store f, ?_⟩
  rintro ⟨usr, hmem, hid⟩
  cases hf : users.find? (fun x => decide (some x.id = f.user_id)) with
  | none =>
    exfalso
    have := List.find?_eq_none.mp hf usr hmem
    simp [hid] at this
  | some usr2 =>
    simp only [admin_appointments_create, hf, sqlInsert_adminCreate]

/-- Witness for claim C10 at a concrete request naming a registered user. -/
theorem C10_admin_create_always_fails_witness :
    (admin_appointments_create cfgDefault okTransport [userAna] fullStore10
        adminCreateForm2030).outcome =
      Outcome.serverError "table appointments has no column named note" :=
  (C10_admin_create_always_fails cfgDefault okTransport [userAna] fullStore10
    adminCreateForm2030).2 (by decide)

end SaludGo
